import Mathlib

/-!
Verification development for the waybg background-layer renderer
(`crates/wayland-core/src/lib.rs`).

Shallow embedding conventions:
* `f64` values are modelled as exact rationals (`ℚ`); `f64::round`
  (round half away from zero) is `f64Round`; `f64::clamp(lo, hi)` is
  `min (max x lo) hi`; `f64::min` / `f64::max` are `min` / `max`.
* `usize` / `u32` are `ℕ`; the one place the code casts `usize` to
  `u32` keeps an explicit `% 2^32`, and `u32::saturating_mul` saturates
  at `2^32 - 1`.
* `std::time::Instant` values are rational timestamps;
  `saturating_duration_since` is `max (now - prev) 0`.
* `io::Error` results are `Except String` with the source's messages.
* `VecDeque` is a `List` whose head is the queue front.
-/

/-- `f64::round` in Rust rounds half away from zero. -/
def f64Round (x : ℚ) : ℤ :=
  if 0 ≤ x then ⌊x + 1 / 2⌋ else -⌊-x + 1 / 2⌋

/-- `str::trim` (drop leading and trailing whitespace). -/
def rustTrim (s : String) : String :=
  ⟨((s.data.dropWhile Char.isWhitespace).reverse.dropWhile Char.isWhitespace).reverse⟩

/-- `str::to_ascii_lowercase`. -/
def asciiLower (s : String) : String :=
  ⟨s.data.map fun c => if 'A' ≤ c ∧ c ≤ 'Z' then Char.ofNat (c.toNat + 32) else c⟩

/-- `Iterator::reduce`: fold a nonempty list with its first element as
the accumulator seed. -/
def iterReduce (f : ℚ → ℚ → ℚ) : List ℚ → Option ℚ
  | [] => none
  | x :: xs => some (xs.foldl f x)

/-! ## Metrics recorder (`MetricsRecorder`, `mean_fps`, `percentile_low_fps`) -/

def METRICS_SCHEMA_VERSION : ℕ := 1

def METRICS_HISTORY_CAPACITY : ℕ := 900

/-- `fn mean_fps(samples: &[f64]) -> f64`. -/
def mean_fps (samples : List ℚ) : ℚ :=
  if samples.isEmpty then 0
  else samples.sum / samples.length

/-- `fn percentile_low_fps(samples: &[f64], keep_ratio: f64) -> f64`.
The ascending stable sort (`sort_by(total_cmp)`) is modelled by
`List.insertionSort`. -/
def percentile_low_fps (samples : List ℚ) (keepRatio : ℚ) : ℚ :=
  if samples.isEmpty then 0
  else
    let tailRatio := min (max (1 - keepRatio) 0) 1
    let sorted := samples.insertionSort (· ≤ ·)
    let index := (f64Round (((sorted.length - 1 : ℕ) : ℚ) * tailRatio)).toNat
    sorted.getD index 0

/-- The numeric and history state of `struct MetricsRecorder` (the
metrics-file path, backend/input identity strings and hardware-decoder
list do not affect the recorded samples and are omitted; `Instant`s are
rational timestamps). -/
structure MetricsRecorder where
  samples : List ℚ
  sample_count : ℕ
  last_fps : ℚ
  previous_frame_instant : Option ℚ

/-- `MetricsRecorder::new` starts with an empty ring, zero count and no
previous timestamp. -/
def MetricsRecorder.init : MetricsRecorder :=
  { samples := [], sample_count := 0, last_fps := 0, previous_frame_instant := none }

/-- `MetricsRecorder::record_frame`, with `Instant::now()` passed in as
the timestamp `now`. -/
def record_frame (r : MetricsRecorder) (now : ℚ) : MetricsRecorder :=
  match r.previous_frame_instant with
  | none => { r with previous_frame_instant := some now }
  | some previous =>
    let delta := max (now - previous) 0
    if 0 < delta then
      let fps := min (max (1 / delta) 0) 1000
      let samples :=
        (if r.samples.length = METRICS_HISTORY_CAPACITY then r.samples.tail else r.samples) ++ [fps]
      { samples := samples, sample_count := r.sample_count + 1, last_fps := fps,
        previous_frame_instant := some now }
    else
      { r with previous_frame_instant := some now }

/-- The fps sample (if any) that `record_frame` produces at timestamp
`now` from state `r`: empty on the first frame or on a non-positive
delta, a singleton clamped rate otherwise. -/
def frameSample (r : MetricsRecorder) (now : ℚ) : List ℚ :=
  match r.previous_frame_instant with
  | none => []
  | some previous =>
    let delta := max (now - previous) 0
    if 0 < delta then [min (max (1 / delta) 0) 1000] else []

/-- All fps samples produced while feeding the timestamps `ts` to the
recorder in order. -/
def producedSamples (r : MetricsRecorder) : List ℚ → List ℚ
  | [] => []
  | t :: ts => frameSample r t ++ producedSamples (record_frame r t) ts

/-- The numeric fields of `PlaybackMetricsSnapshot` (identity strings,
the wall-clock timestamp and the free-text note are produced by IO and
omitted). -/
structure PlaybackMetricsSnapshot where
  schema_version : ℕ
  sample_count : ℕ
  avg_fps : ℚ
  low95_fps : ℚ
  low99_fps : ℚ
  min_fps : ℚ
  max_fps : ℚ
  last_fps : ℚ
  recent_fps : List ℚ

/-- `MetricsRecorder::snapshot` (numeric fields). -/
def MetricsRecorder.snapshot (r : MetricsRecorder) : PlaybackMetricsSnapshot :=
  let recent_fps := r.samples
  { schema_version := METRICS_SCHEMA_VERSION
    sample_count := r.sample_count
    avg_fps := mean_fps recent_fps
    low95_fps := percentile_low_fps recent_fps (95 / 100)
    low99_fps := percentile_low_fps recent_fps (99 / 100)
    min_fps := (iterReduce min recent_fps).getD 0
    max_fps := (iterReduce max recent_fps).getD 0
    last_fps := r.last_fps
    recent_fps := recent_fps }

/-! ## Scaler (`ScaleMode`, `blit_scaled_bgra`, `sample_bilinear_bgra`,
`configure_viewport_source`) -/

inductive ScaleMode where
  | Fit
  | Fill
  | Stretch
deriving DecidableEq

/-- `struct VideoFrame`: a decoded BGRA picture (bytes are `ℕ` values;
the `u8` range is an invariant stated where needed). -/
structure VideoFrame where
  width : ℕ
  height : ℕ
  stride : ℕ
  pixels : List ℕ

/-- `fn pixel_bgra`: fetch one channel byte, out-of-slice reads yield 0. -/
def pixel_bgra (frame : VideoFrame) (x y : ℕ) (channel : ℕ) : ℕ :=
  frame.pixels.getD (y * frame.stride + x * 4 + channel) 0

/-- `fn sample_bilinear_bgra`: half-texel bilinear sampling with edge
clamping; returns the four channel bytes. -/
def sample_bilinear_bgra (frame : VideoFrame) (src_x src_y : ℚ) : List ℕ :=
  let max_x : ℚ := ((frame.width - 1 : ℕ) : ℚ)
  let max_y : ℚ := ((frame.height - 1 : ℕ) : ℚ)
  let x := min (max src_x 0) max_x
  let y := min (max src_y 0) max_y
  let x0 := (⌊x⌋).toNat
  let y0 := (⌊y⌋).toNat
  let x1 := min (x0 + 1) (frame.width - 1)
  let y1 := min (y0 + 1) (frame.height - 1)
  let tx := x - (x0 : ℚ)
  let ty := y - (y0 : ℚ)
  (List.range 4).map fun channel =>
    let p00 : ℚ := pixel_bgra frame x0 y0 channel
    let p10 : ℚ := pixel_bgra frame x1 y0 channel
    let p01 : ℚ := pixel_bgra frame x0 y1 channel
    let p11 : ℚ := pixel_bgra frame x1 y1 channel
    let top := p00 + (p10 - p00) * tx
    let bottom := p01 + (p11 - p01) * tx
    let value := top + (bottom - top) * ty
    (min (max (f64Round value) 0) 255).toNat

/-- A `&mut [u8]` destination canvas: a byte store plus its length. -/
structure Canvas where
  len : ℕ
  data : ℕ → ℕ

/-- `fn fill_black`: write opaque black `[0, 0, 0, 255]` into every
complete 4-byte chunk (`chunks_exact_mut(4)` leaves a ragged tail
untouched). -/
def fill_black (c : Canvas) : Canvas :=
  { c with
    data := fun i =>
      if i < 4 * (c.len / 4) then (if i % 4 = 3 then 255 else 0) else c.data i }

/-- `dst[idx..idx + 4].copy_from_slice(bytes)`. -/
def write4 (c : Canvas) (idx : ℕ) (bytes : List ℕ) : Canvas :=
  { c with
    data := fun i => if idx ≤ i ∧ i < idx + 4 then bytes.getD (i - idx) 0 else c.data i }

/-- `fn blit_scaled_bgra`: CPU bilinear scaling of `frame` into `dst`
under the scale policy. -/
def blit_scaled_bgra (frame : VideoFrame) (dst : Canvas) (dst_width dst_height : ℕ)
    (scale_mode : ScaleMode) : Canvas :=
  if frame.width = 0 ∨ frame.height = 0 ∨ dst_width = 0 ∨ dst_height = 0 then fill_black dst
  else
    let dst_stride := dst_width * 4
    let needed_dst_len := dst_stride * dst_height
    if dst.len < needed_dst_len then fill_black dst
    else if scale_mode = ScaleMode.Stretch ∧ frame.width = dst_width ∧
        frame.height = dst_height ∧ frame.stride = dst_stride ∧
        frame.stride * frame.height ≤ frame.pixels.length then
      { dst with data := fun i => if i < needed_dst_len then frame.pixels.getD i 0 else dst.data i }
    else
      let base := fill_black dst
      let src_width : ℚ := frame.width
      let src_height : ℚ := frame.height
      let dst_width_f : ℚ := dst_width
      let dst_height_f : ℚ := dst_height
      let scales :=
        match scale_mode with
        | ScaleMode.Stretch => (dst_width_f / src_width, dst_height_f / src_height)
        | ScaleMode.Fit =>
          let scale := min (dst_width_f / src_width) (dst_height_f / src_height)
          (scale, scale)
        | ScaleMode.Fill =>
          let scale := max (dst_width_f / src_width) (dst_height_f / src_height)
          (scale, scale)
      let scale_x := scales.1
      let scale_y := scales.2
      if scale_x ≤ 0 ∨ scale_y ≤ 0 then base
      else
        let scaled_width := src_width * scale_x
        let scaled_height := src_height * scale_y
        let offset_x := (dst_width_f - scaled_width) * (1 / 2)
        let offset_y := (dst_height_f - scaled_height) * (1 / 2)
        (List.range dst_height).foldl
          (fun row_canvas y =>
            (List.range dst_width).foldl
              (fun canvas x =>
                let dst_index := y * dst_stride + x * 4
                if dst.len < dst_index + 4 then canvas
                else
                  let x_center : ℚ := (x : ℚ) + 1 / 2
                  let y_center : ℚ := (y : ℚ) + 1 / 2
                  if scale_mode = ScaleMode.Fit ∧
                      (x_center < offset_x ∨ offset_x + scaled_width ≤ x_center ∨
                        y_center < offset_y ∨ offset_y + scaled_height ≤ y_center) then
                    canvas
                  else
                    let src_x := (x_center - offset_x) / scale_x - 1 / 2
                    let src_y := (y_center - offset_y) / scale_y - 1 / 2
                    write4 canvas dst_index (sample_bilinear_bgra frame src_x src_y))
              row_canvas)
          base

/-- `fn fill_canvas_for_surface`: blit the frame, or fill opaque black
when no frame is available. -/
def fill_canvas_for_surface (canvas : Canvas) (frame : Option VideoFrame)
    (dst_width dst_height : ℕ) (scale_mode : ScaleMode) : Canvas :=
  match frame with
  | some frame => blit_scaled_bgra frame canvas dst_width dst_height scale_mode
  | none => fill_black canvas

/-- The arguments of the one `wp_viewport::set_source` call that
`configure_viewport_source` issues. -/
structure ViewportSource where
  x : ℚ
  y : ℚ
  w : ℚ
  h : ℚ
deriving DecidableEq

/-- `fn configure_viewport_source`: the source crop rectangle declared
to the compositor for compositor-assisted scaling. -/
def configure_viewport_source (source_size : Option (ℕ × ℕ))
    (logical_width logical_height : ℕ) (scale_mode : ScaleMode) : ViewportSource :=
  match source_size with
  | none => { x := 0, y := 0, w := 1, h := 1 }
  | some (source_width_u32, source_height_u32) =>
    let source_width : ℚ := (max source_width_u32 1 : ℕ)
    let source_height : ℚ := (max source_height_u32 1 : ℕ)
    match scale_mode with
    | ScaleMode.Fill =>
      let dst_width : ℚ := (max logical_width 1 : ℕ)
      let dst_height : ℚ := (max logical_height 1 : ℕ)
      let dst_aspect := dst_width / dst_height
      let src_aspect := source_width / source_height
      if dst_aspect < src_aspect then
        let crop_width := min (max (source_height * dst_aspect) 1) source_width
        let crop_x := max ((source_width - crop_width) * (1 / 2)) 0
        { x := crop_x, y := 0, w := crop_width, h := source_height }
      else
        let crop_height := min (max (source_width / dst_aspect) 1) source_height
        let crop_y := max ((source_height - crop_height) * (1 / 2)) 0
        { x := 0, y := crop_y, w := source_width, h := crop_height }
    | ScaleMode.Stretch => { x := 0, y := 0, w := source_width, h := source_height }
    | ScaleMode.Fit => { x := 0, y := 0, w := source_width, h := source_height }

/-- `run_layer_renderer`'s gate for compositor-assisted scaling
(`wp_viewporter.is_some() && !matches!(scale_mode, ScaleMode::Fit)`),
and identically `draw_surface`'s per-surface
`surface.viewport.is_some() && !matches!(self.scale_mode, ScaleMode::Fit)`. -/
def compositor_scaling_enabled (viewporter_available : Bool) (scale_mode : ScaleMode) : Bool :=
  viewporter_available && decide (scale_mode ≠ ScaleMode.Fit)

/-! ## Configuration parsers (`parse_dmabuf_mode`, `parse_scale_mode`) -/

def WAYBG_SCALE_MODE_ENV : String := "WAYBG_SCALE_MODE"

def WAYBG_DMABUF_ENV : String := "WAYBG_DMABUF"

def SCALE_MODE_FIT : String := "fit"

def SCALE_MODE_FILL : String := "fill"

def SCALE_MODE_STRETCH : String := "stretch"

def DMABUF_MODE_AUTO : String := "auto"

def DMABUF_MODE_ON : String := "on"

def DMABUF_MODE_OFF : String := "off"

inductive DmabufMode where
  | Auto
  | On
  | Off
deriving DecidableEq

/-- `fn parse_dmabuf_mode` (the error string is built as in the source,
from the lowercased input). -/
def parse_dmabuf_mode (value : String) : Except String DmabufMode :=
  let lower := asciiLower value
  if lower = "" ∨ lower = DMABUF_MODE_AUTO then Except.ok DmabufMode.Auto
  else if lower = DMABUF_MODE_ON ∨ lower = "true" ∨ lower = "1" ∨ lower = "yes" then
    Except.ok DmabufMode.On
  else if lower = DMABUF_MODE_OFF ∨ lower = "false" ∨ lower = "0" ∨ lower = "no" then
    Except.ok DmabufMode.Off
  else
    Except.error ("invalid " ++ WAYBG_DMABUF_ENV ++ " value '" ++ lower ++
      "', expected one of: " ++ DMABUF_MODE_AUTO ++ ", " ++ DMABUF_MODE_ON ++ ", " ++
      DMABUF_MODE_OFF)

/-- `fn parse_scale_mode` (the error string is built as in the source,
from the lowercased input). -/
def parse_scale_mode (value : String) : Except String ScaleMode :=
  let lower := asciiLower value
  if lower = "" ∨ lower = SCALE_MODE_FILL ∨ lower = "cover" then Except.ok ScaleMode.Fill
  else if lower = SCALE_MODE_FIT ∨ lower = "contain" then Except.ok ScaleMode.Fit
  else if lower = SCALE_MODE_STRETCH then Except.ok ScaleMode.Stretch
  else
    Except.error ("invalid " ++ WAYBG_SCALE_MODE_ENV ++ " value '" ++ lower ++
      "', expected one of: " ++ SCALE_MODE_FILL ++ ", " ++ SCALE_MODE_FIT ++ ", " ++
      SCALE_MODE_STRETCH)

/-! ## Output selection (`select_target_outputs`) -/

/-- `fn select_target_outputs`. An advertised output is modelled as an
opaque handle (`ℕ`) paired with its optional advertised name, the shape
the source builds from `OutputState` before selecting. -/
def select_target_outputs (outputs : List (ℕ × Option String))
    (requested_output_name : Option String) : Except String (List (ℕ × Option String)) :=
  if outputs.isEmpty then Except.error "no outputs advertised by the compositor"
  else
    match (requested_output_name.map rustTrim).filter (fun name => !name.isEmpty) with
    | none => Except.ok outputs
    | some requestedName =>
      match outputs.find? (fun entry => decide (entry.2 = some requestedName)) with
      | some found => Except.ok [found]
      | none =>
        let available := outputs.filterMap Prod.snd
        Except.error ("requested output '" ++ requestedName ++
          "' was not found (available outputs: " ++
          (if available.isEmpty then "<none named>" else String.intercalate ", " available) ++
          ")")

/-! ## Plane/layout resolution (`normalize_plane_count`,
`calculate_single_plane_stride`, `plane_layout_from_meta`,
`collect_dmabuf_planes`) -/

def GST_VIDEO_MAX_PLANES : ℕ := 4

def U32_SIZE : ℕ := 2 ^ 32

/-- `fn normalize_plane_count`. -/
def normalize_plane_count (n_planes : ℕ) : Except String ℕ :=
  if n_planes = 0 ∨ GST_VIDEO_MAX_PLANES < n_planes then
    Except.error ("invalid dmabuf plane count " ++ toString n_planes)
  else Except.ok n_planes

/-- `fn calculate_single_plane_stride`. The `usize → u32` cast of the
derived stride truncates (`% 2^32`) and `u32::saturating_mul` saturates,
as in the source. -/
def calculate_single_plane_stride (total_size width height : ℕ)
    (bytes_per_pixel : Option ℕ) : Except String ℕ :=
  if height = 0 ∨ total_size < height then
    Except.error "invalid dmabuf plane dimensions"
  else if ¬ total_size % height = 0 then
    Except.error ("dmabuf plane size " ++ toString total_size ++
      " is not divisible by frame height " ++ toString height)
  else
    let stride := total_size / height % U32_SIZE
    match bytes_per_pixel with
    | some bpp =>
      let min_stride := min (bpp % U32_SIZE * width) (U32_SIZE - 1)
      if stride < min_stride then
        Except.error ("dmabuf stride (" ++ toString stride ++
          ") is smaller than required stride (" ++ toString min_stride ++ ")")
      else Except.ok stride
    | none => Except.ok stride

/-- The fields of `GstVideoMetaPrefix` that plane resolution reads:
the declared plane count and per-plane byte offsets (`usize`) and
strides (`i32`). -/
structure GstVideoMetaPrefix where
  n_planes : ℕ
  offset : Fin GST_VIDEO_MAX_PLANES → ℕ
  stride : Fin GST_VIDEO_MAX_PLANES → ℤ

/-- `fn plane_layout_from_meta`: offset must fit `u32`, stride must be
a valid (nonnegative, `u32`-sized) value. -/
def plane_layout_from_meta (meta : GstVideoMetaPrefix) (plane_index : ℕ) :
    Except String (ℕ × ℕ) :=
  if h : GST_VIDEO_MAX_PLANES ≤ plane_index then
    Except.error ("plane index " ++ toString plane_index ++ " is out of range")
  else
    let offset := meta.offset ⟨plane_index, Nat.lt_of_not_le h⟩
    let stride := meta.stride ⟨plane_index, Nat.lt_of_not_le h⟩
    if U32_SIZE ≤ offset then
      Except.error ("dmabuf plane offset " ++ toString offset ++ " does not fit into u32")
    else if stride < 0 ∨ (U32_SIZE : ℤ) ≤ stride then
      Except.error ("dmabuf plane stride " ++ toString stride ++ " is invalid")
    else Except.ok (offset, stride.toNat)

/-- A resolved dmabuf plane. The duplicated close-on-exec file
descriptor owned by `DmabufPlane` is an OS handle outside the
embedding; the byte offset and row stride are kept. -/
structure DmabufPlane where
  offset : ℕ
  stride : ℕ
deriving DecidableEq

/-- The parts of a `gst::BufferRef` that `collect_dmabuf_planes` reads:
the list of its memory blocks, each with its byte size (every block is
assumed dmabuf-backed with a retrievable fd; a non-dmabuf memory fails
earlier in `dmabuf_memory_fd`). -/
structure GstBuffer where
  memory_sizes : List ℕ

/-- `fn collect_dmabuf_planes`. -/
def collect_dmabuf_planes (buffer : GstBuffer) (video_meta : Option GstVideoMetaPrefix)
    (width height : ℕ) (n_planes : ℕ) (bytes_per_pixel : Option ℕ) :
    Except String (List DmabufPlane) :=
  let n_memory := buffer.memory_sizes.length
  if n_memory = 0 then Except.error "sample buffer has no memories"
  else if n_memory = 1 then
    let memory_size := buffer.memory_sizes.getD 0 0
    let plane_stride_fallback : Except String (Option ℕ) :=
      if n_planes = 1 ∧ video_meta.isNone then
        (calculate_single_plane_stride memory_size width height bytes_per_pixel).map
          (fun stride => some stride)
      else Except.ok none
    plane_stride_fallback.bind fun fallback =>
      (List.range n_planes).mapM fun plane_index =>
        match video_meta with
        | some meta =>
          (plane_layout_from_meta meta plane_index).map fun layout =>
            { offset := layout.1, stride := layout.2 : DmabufPlane }
        | none =>
          match fallback with
          | some stride => Except.ok { offset := 0, stride := stride : DmabufPlane }
          | none => Except.error "missing plane metadata for dmabuf import"
  else if n_memory = n_planes then
    (List.range n_planes).mapM fun plane_index =>
      match video_meta with
      | some meta =>
        (plane_layout_from_meta meta plane_index).map fun layout =>
          { offset := 0, stride := layout.2 : DmabufPlane }
      | none =>
        if n_planes = 1 then
          (calculate_single_plane_stride (buffer.memory_sizes.getD plane_index 0)
              width height bytes_per_pixel).map
            fun stride => { offset := 0, stride := stride : DmabufPlane }
        else Except.error "multi-memory dmabuf sample missing GstVideoMeta stride data"
  else
    Except.error ("unsupported dmabuf memory layout: " ++ toString n_memory ++
      " memories for " ++ toString n_planes ++ " planes")

/-- The plane-count resolution step of `sample_to_dmabuf_frame`: from
the optional per-frame `GstVideoMeta` and whether the caps declared the
generic `DMA_DRM` format. Without metadata (and outside `DMA_DRM`)
exactly one plane is assumed. -/
def resolve_n_planes (video_meta : Option GstVideoMetaPrefix) (is_dma_drm : Bool) :
    Except String ℕ :=
  match video_meta with
  | some meta => normalize_plane_count meta.n_planes
  | none =>
    if is_dma_drm then
      Except.error "DMA_DRM sample is missing GstVideoMeta, cannot resolve plane layout"
    else Except.ok 1

/-! ## Zero-copy buffer bookkeeping (`draw_surface_dmabuf`,
`draw_surface_dmabuf_imported`, `ensure_dmabuf_buffers`) -/

def DMABUF_POOL_SIZE : ℕ := 2

def MAX_IMPORTED_DMABUF_IN_FLIGHT : ℕ := 3

/-- The per-surface buffer bookkeeping of `WallpaperSurface` that the
dmabuf draw path mutates: the pool entries' `released` flags, the
number of imported decoder-owned buffers still submitted
(`imported_dmabuf_frames.len()`), the dimensions the current buffers
were created for, and whether a shm slot buffer is cached. -/
structure SurfaceBuffers where
  dmabuf_released : List Bool
  imported_in_flight : ℕ
  buffer_width : ℕ
  buffer_height : ℕ
  has_shm_buffer : Bool
deriving DecidableEq

/-- A freshly created `WallpaperSurface` starts with no buffers. -/
def SurfaceBuffers.init : SurfaceBuffers :=
  { dmabuf_released := [], imported_in_flight := 0, buffer_width := 0, buffer_height := 0,
    has_shm_buffer := false }

/-- What a dmabuf draw call did to the compositor: whether it
registered a new frame callback, whether the commit attached a new
buffer, and whether it committed at all. -/
structure DrawEffects where
  frame_requested : Bool
  attached_buffer : Bool
  committed : Bool
deriving DecidableEq

/-- The payload variants `draw_surface_dmabuf` distinguishes: a CPU
frame, or a decoder-owned dmabuf frame with its plane count. -/
inductive FramePayload where
  | Cpu
  | Dmabuf (n_planes : ℕ)
deriving DecidableEq

/-- `ensure_dmabuf_buffers`: recreate the fixed pool of
`DMABUF_POOL_SIZE` kernel-heap buffers (every new entry is `released`)
when none exist or the target dimensions changed; allocation needs the
dma_heap device. -/
def ensure_dmabuf_buffers (heap_available : Bool) (s : SurfaceBuffers)
    (buffer_width buffer_height : ℕ) : Except String SurfaceBuffers :=
  let needs_recreate := s.dmabuf_released.isEmpty ∨ s.buffer_width ≠ buffer_width ∨
    s.buffer_height ≠ buffer_height
  if ¬ needs_recreate then Except.ok s
  else if ¬ heap_available then Except.error "dma_heap fd is unavailable"
  else
    Except.ok
      { dmabuf_released := List.replicate DMABUF_POOL_SIZE true,
        imported_in_flight := s.imported_in_flight,
        buffer_width := buffer_width, buffer_height := buffer_height,
        has_shm_buffer := false }

/-- `draw_surface_dmabuf_imported`: defer (frame callback, commit, no
attach) when `MAX_IMPORTED_DMABUF_IN_FLIGHT` imports are pending;
otherwise wrap the decoder frame's planes as a new `wl_buffer` (fails
on an empty plane list) and attach it. -/
def draw_surface_dmabuf_imported (s : SurfaceBuffers) (n_planes : ℕ) :
    Except String (SurfaceBuffers × DrawEffects) :=
  if MAX_IMPORTED_DMABUF_IN_FLIGHT ≤ s.imported_in_flight then
    Except.ok (s, { frame_requested := true, attached_buffer := false, committed := true })
  else if n_planes = 0 then Except.error "dmabuf frame has no planes"
  else
    Except.ok ({ s with imported_in_flight := s.imported_in_flight + 1 },
      { frame_requested := true, attached_buffer := true, committed := true })

/-- `draw_surface_dmabuf`: returns `(state, handled, effects)`;
`handled = false` is the source's `Ok(false)` (caller falls back to the
shm path). When every pool entry is held by the compositor the redraw
is deferred: a frame callback is requested and the commit carries no
buffer. -/
def draw_surface_dmabuf (dmabuf_enabled heap_available : Bool) (s : SurfaceBuffers)
    (use_compositor_scaling : Bool) (frame_payload : Option FramePayload)
    (buffer_width buffer_height : ℕ) :
    Except String (SurfaceBuffers × Bool × DrawEffects) :=
  if ¬ dmabuf_enabled then
    Except.ok (s, false, { frame_requested := false, attached_buffer := false, committed := false })
  else
    match use_compositor_scaling, frame_payload with
    | true, some (FramePayload.Dmabuf n_planes) =>
      (draw_surface_dmabuf_imported s n_planes).map fun result =>
        (result.1, true, result.2)
    | _, _ =>
      (ensure_dmabuf_buffers heap_available s buffer_width buffer_height).bind fun s1 =>
        match s1.dmabuf_released.findIdx? (fun released => released) with
        | none =>
          Except.ok (s1, true,
            { frame_requested := true, attached_buffer := false, committed := true })
        | some buffer_index =>
          Except.ok ({ s1 with dmabuf_released := s1.dmabuf_released.set buffer_index false },
            true,
            { frame_requested := true, attached_buffer := true, committed := true })

/-- The events that mutate a surface's dmabuf bookkeeping: a redraw
(`draw_surface_dmabuf`; a failed draw leaves the surface unchanged and
is reported separately), a `wl_buffer::release` for a pool entry or an
imported frame, a geometry change (`scale_factor_changed` /
`transform_changed` clear all cached buffers), and the dmabuf fallback
(`disable_dmabuf`). -/
inductive SurfaceEvent where
  | draw (dmabuf_enabled heap_available use_compositor_scaling : Bool)
      (frame_payload : Option FramePayload) (buffer_width buffer_height : ℕ)
  | releasePool (buffer_index : ℕ)
  | releaseImported
  | geometryChange
  | disableDmabuf

/-- One step of the surface bookkeeping under an event. -/
def SurfaceBuffers.step (s : SurfaceBuffers) : SurfaceEvent → SurfaceBuffers
  | SurfaceEvent.draw dmabuf_enabled heap_available use_cs frame_payload bw bh =>
    match draw_surface_dmabuf dmabuf_enabled heap_available s use_cs frame_payload bw bh with
    | Except.ok result => result.1
    | Except.error _ => s
  | SurfaceEvent.releasePool buffer_index =>
    { s with dmabuf_released := s.dmabuf_released.set buffer_index true }
  | SurfaceEvent.releaseImported =>
    { s with imported_in_flight := s.imported_in_flight - 1 }
  | SurfaceEvent.geometryChange =>
    { s with
      dmabuf_released := []
      imported_in_flight := 0
      has_shm_buffer := false
      buffer_width := 0
      buffer_height := 0 }
  | SurfaceEvent.disableDmabuf =>
    { s with dmabuf_released := [], imported_in_flight := 0 }

/-- Folding a whole event history from the initial surface state. -/
def SurfaceBuffers.run (events : List SurfaceEvent) : SurfaceBuffers :=
  events.foldl SurfaceBuffers.step SurfaceBuffers.init

/-- The number of pool buffers currently held by the compositor
(created and not marked `released`). -/
def SurfaceBuffers.heldCount (s : SurfaceBuffers) : ℕ :=
  s.dmabuf_released.countP (fun released => !released)

/-! ## Theorems -/

/-- C10: on an empty sample list every summary statistic degrades to 0:
`mean_fps` returns 0, `percentile_low_fps` returns 0 for any keep
ratio, and a snapshot built from an empty ring reports `min_fps` and
`max_fps` (and the derived averages) of 0. -/
theorem empty_ring_stats_spec :
    mean_fps [] = 0 ∧
    (∀ keepRatio : ℚ, percentile_low_fps [] keepRatio = 0) ∧
    (∀ r : MetricsRecorder, r.samples = [] →
      r.snapshot.min_fps = 0 ∧ r.snapshot.max_fps = 0 ∧
      r.snapshot.avg_fps = 0 ∧ r.snapshot.low95_fps = 0 ∧ r.snapshot.low99_fps = 0) := by
  refine ⟨by simp [mean_fps], fun keepRatio => by simp [percentile_low_fps], fun r h => ?_⟩
  simp [MetricsRecorder.snapshot, h, iterReduce, mean_fps, percentile_low_fps]

/-- C10 witness: the freshly initialized recorder has an empty ring and
all-zero statistics. -/
theorem empty_ring_stats_witness :
    MetricsRecorder.init.snapshot.min_fps = 0 ∧ MetricsRecorder.init.snapshot.max_fps = 0 ∧
    MetricsRecorder.init.snapshot.avg_fps = 0 ∧ MetricsRecorder.init.snapshot.low95_fps = 0 ∧
    MetricsRecorder.init.snapshot.low99_fps = 0 :=
  empty_ring_stats_spec.2.2 MetricsRecorder.init rfl

/-- C9 (amended): each parser accepts its documented case-insensitive
literals — plus the empty string, which the source maps to the default
(`auto` / `fill`) — and rejects everything else with an error naming
the offending environment variable. -/
theorem parse_mode_spec :
    ∀ value : String,
      (parse_dmabuf_mode value = Except.ok DmabufMode.Auto ↔
        asciiLower value ∈ ["", "auto"]) ∧
      (parse_dmabuf_mode value = Except.ok DmabufMode.On ↔
        asciiLower value ∈ ["on", "true", "1", "yes"]) ∧
      (parse_dmabuf_mode value = Except.ok DmabufMode.Off ↔
        asciiLower value ∈ ["off", "false", "0", "no"]) ∧
      (asciiLower value ∉ ["", "auto", "on", "true", "1", "yes", "off", "false", "0", "no"] →
        parse_dmabuf_mode value = Except.error ("invalid " ++ WAYBG_DMABUF_ENV ++ " value '" ++
          asciiLower value ++ "', expected one of: " ++ DMABUF_MODE_AUTO ++ ", " ++
          DMABUF_MODE_ON ++ ", " ++ DMABUF_MODE_OFF)) ∧
      (parse_scale_mode value = Except.ok ScaleMode.Fill ↔
        asciiLower value ∈ ["", "fill", "cover"]) ∧
      (parse_scale_mode value = Except.ok ScaleMode.Fit ↔
        asciiLower value ∈ ["fit", "contain"]) ∧
      (parse_scale_mode value = Except.ok ScaleMode.Stretch ↔
        asciiLower value = "stretch") ∧
      (asciiLower value ∉ ["", "fill", "cover", "fit", "contain", "stretch"] →
        parse_scale_mode value = Except.error ("invalid " ++ WAYBG_SCALE_MODE_ENV ++
          " value '" ++ asciiLower value ++ "', expected one of: " ++ SCALE_MODE_FILL ++
          ", " ++ SCALE_MODE_FIT ++ ", " ++ SCALE_MODE_STRETCH)) := by
  intro value
  refine ⟨?_, ?_, ?_, ?_, ?_, ?_, ?_, ?_⟩
  · simp only [parse_dmabuf_mode, DMABUF_MODE_AUTO, DMABUF_MODE_ON, DMABUF_MODE_OFF]
    split_ifs with h1 h2 h3
    · rcases h1 with h | h <;> simp [h]
    · rcases h2 with h | h | h | h <;> simp [h]
    · rcases h3 with h | h | h | h <;> simp [h]
    · push_neg at h1
      simp [h1.1, h1.2]
  · simp only [parse_dmabuf_mode, DMABUF_MODE_AUTO, DMABUF_MODE_ON, DMABUF_MODE_OFF]
    split_ifs with h1 h2 h3
    · rcases h1 with h | h <;> simp [h]
    · rcases h2 with h | h | h | h <;> simp [h]
    · rcases h3 with h | h | h | h <;> simp [h]
    · push_neg at h2
      simp [h2.1, h2.2.1, h2.2.2.1, h2.2.2.2]
  · simp only [parse_dmabuf_mode, DMABUF_MODE_AUTO, DMABUF_MODE_ON, DMABUF_MODE_OFF]
    split_ifs with h1 h2 h3
    · rcases h1 with h | h <;> simp [h]
    · rcases h2 with h | h | h | h <;> simp [h]
    · rcases h3 with h | h | h | h <;> simp [h]
    · push_neg at h3
      simp [h3.1, h3.2.1, h3.2.2.1, h3.2.2.2]
  · intro hmem
    simp only [List.mem_cons, List.mem_singleton, not_or] at hmem
    obtain ⟨e1, e2, e3, e4, e5, e6, e7, e8, e9, e10, -⟩ := hmem
    simp [parse_dmabuf_mode, DMABUF_MODE_AUTO, DMABUF_MODE_ON, DMABUF_MODE_OFF,
      e1, e2, e3, e4, e5, e6, e7, e8, e9, e10]
  · simp only [parse_scale_mode, SCALE_MODE_FILL, SCALE_MODE_FIT, SCALE_MODE_STRETCH]
    split_ifs with h1 h2 h3
    · rcases h1 with h | h | h <;> simp [h]
    · rcases h2 with h | h <;> simp [h]
    · simp [h3]
    · push_neg at h1
      simp [h1.1, h1.2.1, h1.2.2]
  · simp only [parse_scale_mode, SCALE_MODE_FILL, SCALE_MODE_FIT, SCALE_MODE_STRETCH]
    split_ifs with h1 h2 h3
    · rcases h1 with h | h | h <;> simp [h]
    · rcases h2 with h | h <;> simp [h]
    · simp [h3]
    · push_neg at h2
      simp [h2.1, h2.2]
  · simp only [parse_scale_mode, SCALE_MODE_FILL, SCALE_MODE_FIT, SCALE_MODE_STRETCH]
    split_ifs with h1 h2 h3
    · rcases h1 with h | h | h <;> simp [h]
    · rcases h2 with h | h <;> simp [h]
    · simp [h3]
    · simp [h3]
  · intro hmem
    simp only [List.mem_cons, List.mem_singleton, not_or] at hmem
    obtain ⟨e1, e2, e3, e4, e5, e6, -⟩ := hmem
    simp [parse_scale_mode, SCALE_MODE_FILL, SCALE_MODE_FIT, SCALE_MODE_STRETCH,
      e1, e2, e3, e4, e5, e6]

/-- C9 witness: a value outside both accepted sets is rejected by both
parsers with the variable-naming error messages. -/
theorem parse_mode_spec_witness :
    parse_dmabuf_mode "bogus" = Except.error ("invalid " ++ WAYBG_DMABUF_ENV ++ " value '" ++
      asciiLower "bogus" ++ "', expected one of: " ++ DMABUF_MODE_AUTO ++ ", " ++
      DMABUF_MODE_ON ++ ", " ++ DMABUF_MODE_OFF) ∧
    parse_scale_mode "bogus" = Except.error ("invalid " ++ WAYBG_SCALE_MODE_ENV ++
      " value '" ++ asciiLower "bogus" ++ "', expected one of: " ++ SCALE_MODE_FILL ++
      ", " ++ SCALE_MODE_FIT ++ ", " ++ SCALE_MODE_STRETCH) :=
  ⟨(parse_mode_spec "bogus").2.2.2.1 (by decide),
    (parse_mode_spec "bogus").2.2.2.2.2.2.2 (by decide)⟩

/-- C9 counterexample: the claim's accepted sets omit the empty string,
but both parsers accept `""` (as the defaults `auto` / `fill`), so
"every other input string is rejected" fails at the empty string. -/
theorem parse_mode_empty_accepted_cex :
    parse_dmabuf_mode "" = Except.ok DmabufMode.Auto ∧
    parse_scale_mode "" = Except.ok ScaleMode.Fill ∧
    "" ∉ ["auto", "on", "off", "true", "1", "yes", "false", "0", "no"] ∧
    "" ∉ ["fit", "fill", "stretch", "contain", "cover"] :=
  ⟨rfl, rfl, by decide, by decide⟩

/-- C8: with a non-empty output list, no (or blank) requested name
targets all outputs; an exact name match targets exactly that output;
a name matching nothing fails with an error listing the found names, or
`<none named>` when no output is named. -/
theorem select_target_outputs_spec :
    ∀ (outputs : List (ℕ × Option String)) (requested : Option String),
      outputs ≠ [] →
      ((requested = none ∨ ∃ s, requested = some s ∧ rustTrim s = "") →
        select_target_outputs outputs requested = Except.ok outputs) ∧
      (∀ s, requested = some s → rustTrim s ≠ "" →
        (∃ entry ∈ outputs, entry.2 = some (rustTrim s)) →
        ∃ found, select_target_outputs outputs requested = Except.ok [found] ∧
          found ∈ outputs ∧ found.2 = some (rustTrim s)) ∧
      (∀ s, requested = some s → rustTrim s ≠ "" →
        (∀ entry ∈ outputs, entry.2 ≠ some (rustTrim s)) →
        select_target_outputs outputs requested =
          Except.error ("requested output '" ++ rustTrim s ++
            "' was not found (available outputs: " ++
            (if (outputs.filterMap Prod.snd).isEmpty then "<none named>"
              else String.intercalate ", " (outputs.filterMap Prod.snd)) ++ ")")) := by
  intro outputs requested hne
  have hempty : outputs.isEmpty = false := by
    simpa [List.isEmpty_iff] using hne
  refine ⟨?_, ?_, ?_⟩
  · rintro (rfl | ⟨s, rfl, hblank⟩)
    · simp [select_target_outputs, hempty, Option.filter]
    · have hE : ("" : String).isEmpty = true := rfl
      simp [select_target_outputs, hempty, Option.filter, hblank, hE]
  · intro s hreq hblank hfound
    subst hreq
    have hfilter : (Option.filter (fun name => !name.isEmpty) (some (rustTrim s))) =
        some (rustTrim s) := by
      simp [Option.filter, String.isEmpty_iff, hblank]
    obtain ⟨entry, hmem, hname⟩ := hfound
    have hsome : (outputs.find? (fun entry => decide (entry.2 = some (rustTrim s)))).isSome := by
      rw [List.find?_isSome]
      exact ⟨entry, hmem, by simp [hname]⟩
    obtain ⟨found, hfind⟩ := Option.isSome_iff_exists.mp hsome
    refine ⟨found, ?_, List.mem_of_find?_eq_some hfind, ?_⟩
    · simp [select_target_outputs, hempty, Option.map, hfilter, hfind]
    · have := List.find?_some hfind
      simpa using this
  · intro s hreq hblank hnone
    subst hreq
    have hfilter : (Option.filter (fun name => !name.isEmpty) (some (rustTrim s))) =
        some (rustTrim s) := by
      simp [Option.filter, String.isEmpty_iff, hblank]
    have hfind : outputs.find? (fun entry => decide (entry.2 = some (rustTrim s))) = none := by
      rw [List.find?_eq_none]
      intro entry hmem
      simpa using hnone entry hmem
    simp [select_target_outputs, hempty, Option.map, hfilter, hfind]

/-- C8 witness: requesting `HDMI-1` from outputs named `DP-1` and
(unnamed) fails listing `DP-1`; requesting nothing targets all; the
exact name targets only that output. -/
theorem select_target_outputs_witness :
    select_target_outputs [(0, some "DP-1"), (1, none)] (some "HDMI-1") =
      Except.error ("requested output '" ++ rustTrim "HDMI-1" ++
        "' was not found (available outputs: " ++
        (if (([(0, some "DP-1"), (1, none)] : List (ℕ × Option String)).filterMap
            Prod.snd).isEmpty then "<none named>"
          else String.intercalate ", "
            (([(0, some "DP-1"), (1, none)] : List (ℕ × Option String)).filterMap Prod.snd)) ++
        ")") ∧
    select_target_outputs [(0, some "DP-1"), (1, none)] none =
      Except.ok [(0, some "DP-1"), (1, none)] ∧
    (∃ found, select_target_outputs [(0, some "DP-1"), (1, none)] (some "DP-1") =
      Except.ok [found] ∧ found ∈ ([(0, some "DP-1"), (1, none)] : List (ℕ × Option String)) ∧
      found.2 = some (rustTrim "DP-1")) :=
  ⟨(select_target_outputs_spec [(0, some "DP-1"), (1, none)] (some "HDMI-1")
      (by decide)).2.2 "HDMI-1" rfl (by decide) (by decide),
    (select_target_outputs_spec [(0, some "DP-1"), (1, none)] none (by decide)).1 (Or.inl rfl),
    (select_target_outputs_spec [(0, some "DP-1"), (1, none)] (some "DP-1")
      (by decide)).2.1 "DP-1" rfl (by decide) ⟨(0, some "DP-1"), by decide, by decide⟩⟩

/-- C6: without per-frame layout metadata exactly one plane is assumed;
its stride is `total_backing_size / height`, validated to be at least
`bytes_per_pixel * width` (error otherwise); and a declared plane count
of zero or above 4 always fails conversion. -/
theorem plane_layout_fallback_spec :
    (∀ (meta : GstVideoMetaPrefix) (is_dma_drm : Bool),
      meta.n_planes = 0 ∨ GST_VIDEO_MAX_PLANES < meta.n_planes →
      resolve_n_planes (some meta) is_dma_drm =
        Except.error ("invalid dmabuf plane count " ++ toString meta.n_planes)) ∧
    resolve_n_planes none false = Except.ok 1 ∧
    (∀ total_size width height bpp, height ≠ 0 → height ≤ total_size →
      total_size % height = 0 → total_size / height < U32_SIZE → bpp * width < U32_SIZE →
      bpp < U32_SIZE →
      ((bpp * width ≤ total_size / height →
        calculate_single_plane_stride total_size width height (some bpp) =
          Except.ok (total_size / height)) ∧
      (total_size / height < bpp * width →
        ∃ e, calculate_single_plane_stride total_size width height (some bpp) =
          Except.error e))) ∧
    (∀ (memory_size width height : ℕ) (bpp : Option ℕ) (stride : ℕ),
      calculate_single_plane_stride memory_size width height bpp = Except.ok stride →
      collect_dmabuf_planes ⟨[memory_size]⟩ none width height 1 bpp =
        Except.ok [{ offset := 0, stride := stride }]) := by
  refine ⟨?_, rfl, ?_, ?_⟩
  · intro meta is_dma_drm h
    simp only [resolve_n_planes, normalize_plane_count]
    rw [if_pos h]
  · intro total_size width height bpp hh hle hdvd hlt hbw hbpp
    have hnotlt : ¬ total_size < height := not_lt.mpr hle
    have hmod : total_size / height % U32_SIZE = total_size / height := Nat.mod_eq_of_lt hlt
    have hbmod : bpp % U32_SIZE = bpp := Nat.mod_eq_of_lt hbpp
    have hmin : min (bpp * width) (U32_SIZE - 1) = bpp * width :=
      min_eq_left (Nat.le_sub_one_of_lt hbw)
    constructor
    · intro hok
      simp only [calculate_single_plane_stride, hh, hnotlt, hdvd, hmod, hbmod, hmin]
      simp [not_lt.mpr hok]
    · intro hbad
      refine ⟨"dmabuf stride (" ++ toString (total_size / height) ++
        ") is smaller than required stride (" ++ toString (bpp * width) ++ ")", ?_⟩
      simp only [calculate_single_plane_stride, hh, hnotlt, hdvd, hmod, hbmod, hmin]
      simp [hbad]
  · intro memory_size width height bpp stride hok
    simp [collect_dmabuf_planes, hok, List.range_succ, Except.map, Except.bind,
      List.mapM.loop]

/-- C6 witness: a 2×4 frame backed by 32 bytes with 4 bytes per pixel
resolves to one plane of stride 8; zero declared planes fail. -/
theorem plane_layout_fallback_witness :
    (calculate_single_plane_stride 32 2 4 (some 4) = Except.ok (32 / 4) ∧
      ∃ e, calculate_single_plane_stride 48 4 4 (some 4) = Except.error e) ∧
    collect_dmabuf_planes ⟨[32]⟩ none 2 4 1 (some 4) =
      Except.ok [{ offset := 0, stride := 8 }] ∧
    resolve_n_planes (some { n_planes := 0, offset := fun _ => 0, stride := fun _ => 0 })
        false = Except.error ("invalid dmabuf plane count " ++ toString 0) := by
  have base := plane_layout_fallback_spec
  have hcalc := (base.2.2.1 32 2 4 4 (by norm_num) (by norm_num) (by norm_num)
    (by norm_num [U32_SIZE]) (by norm_num [U32_SIZE]) (by norm_num [U32_SIZE]))
  have hbad := (base.2.2.1 48 4 4 4 (by norm_num) (by norm_num) (by norm_num)
    (by norm_num [U32_SIZE]) (by norm_num [U32_SIZE]) (by norm_num [U32_SIZE]))
  refine ⟨⟨hcalc.1 (by norm_num), hbad.2 (by norm_num)⟩, ?_, ?_⟩
  · exact base.2.2.2 32 2 4 (some 4) 8 (by simpa using hcalc.1 (by norm_num))
  · exact base.1 { n_planes := 0, offset := fun _ => 0, stride := fun _ => 0 } false (Or.inl rfl)

/-- Every sample `frameSample` produces is clamped into `[0, 1000]`. -/
lemma frameSample_bounds (r : MetricsRecorder) (t : ℚ) :
    ∀ x ∈ frameSample r t, 0 ≤ x ∧ x ≤ 1000 := by
  intro x hx
  unfold frameSample at hx
  rcases hrev : r.previous_frame_instant with _ | previous
  · simp [hrev] at hx
  · simp only [hrev] at hx
    split_ifs at hx with hpos
    · simp only [List.mem_singleton] at hx
      subst hx
      exact ⟨le_min (le_max_right _ _) (by norm_num), min_le_right _ _⟩
    · simp at hx

/-- Every sample in `producedSamples` is clamped into `[0, 1000]`. -/
lemma producedSamples_bounds (ts : List ℚ) :
    ∀ r, ∀ x ∈ producedSamples r ts, 0 ≤ x ∧ x ≤ 1000 := by
  induction ts with
  | nil => intro r x hx; simp [producedSamples] at hx
  | cons t ts ih =>
    intro r x hx
    simp only [producedSamples, List.mem_append] at hx
    rcases hx with hx | hx
    · exact frameSample_bounds r t x hx
    · exact ih (record_frame r t) x hx

/-- The ring/count invariant: the ring is the suffix of the produced
samples of length at most the capacity, and the count is the full
number of produced samples. -/
def MetricsInv (r : MetricsRecorder) (p : List ℚ) : Prop :=
  r.samples = p.drop (p.length - METRICS_HISTORY_CAPACITY) ∧ r.sample_count = p.length

/-- One `record_frame` step preserves the ring/count invariant. -/
lemma metricsInv_step (r : MetricsRecorder) (p : List ℚ) (t : ℚ) (h : MetricsInv r p) :
    MetricsInv (record_frame r t) (p ++ frameSample r t) := by
  obtain ⟨hring, hcount⟩ := h
  have hlen : r.samples.length = p.length - (p.length - METRICS_HISTORY_CAPACITY) := by
    rw [hring, List.length_drop]
  have hcap900 : METRICS_HISTORY_CAPACITY = 900 := rfl
  unfold MetricsInv record_frame frameSample
  rcases hrev : r.previous_frame_instant with _ | previous
  · exact ⟨by simpa using hring, by simpa using hcount⟩
  · simp only [hrev]
    split_ifs with hpos hfull
    · have hcap : 900 ≤ p.length := by omega
      refine ⟨?_, by simp [hcount]⟩
      have hk1 : p.length + 1 - METRICS_HISTORY_CAPACITY ≤ p.length := by omega
      have harith : p.length - METRICS_HISTORY_CAPACITY + 1 =
          p.length + 1 - METRICS_HISTORY_CAPACITY := by omega
      simp only [List.length_append, List.length_cons, List.length_nil, Nat.zero_add]
      rw [hring, List.tail_drop, List.drop_append_of_le_length hk1, harith]
    · have hsmall : p.length < 900 := by omega
      refine ⟨?_, by simp [hcount]⟩
      have h0 : p.length - METRICS_HISTORY_CAPACITY = 0 := by omega
      have h0' : p.length + 1 - METRICS_HISTORY_CAPACITY = 0 := by omega
      simp only [List.length_append, List.length_cons, List.length_nil, Nat.zero_add]
      rw [hring, h0, List.drop_zero, h0', List.drop_zero]
    · exact ⟨by simpa using hring, by simpa using hcount⟩

/-- Feeding any timestamp list preserves the ring/count invariant. -/
lemma metricsInv_run (ts : List ℚ) :
    ∀ r p, MetricsInv r p → MetricsInv (ts.foldl record_frame r) (p ++ producedSamples r ts) := by
  induction ts with
  | nil => intro r p h; simpa [producedSamples] using h
  | cons t ts ih =>
    intro r p h
    have step := metricsInv_step r p t h
    have := ih (record_frame r t) (p ++ frameSample r t) step
    simpa [producedSamples, List.append_assoc] using this

/-- C7: the first recorded frame produces no fps sample; every stored
sample lies in `[0, 1000]`; the ring never holds more than 900 entries
and is exactly the suffix of the produced samples (oldest evicted
first); and the running count equals the total number of samples
produced, uncapped. -/
theorem metrics_history_spec :
    (∀ t, (record_frame MetricsRecorder.init t).samples = [] ∧
      (record_frame MetricsRecorder.init t).sample_count = 0) ∧
    (∀ ts : List ℚ,
      (∀ x ∈ (ts.foldl record_frame MetricsRecorder.init).samples, 0 ≤ x ∧ x ≤ 1000) ∧
      (ts.foldl record_frame MetricsRecorder.init).samples.length ≤ 900 ∧
      (ts.foldl record_frame MetricsRecorder.init).sample_count =
        (producedSamples MetricsRecorder.init ts).length ∧
      (ts.foldl record_frame MetricsRecorder.init).samples =
        (producedSamples MetricsRecorder.init ts).drop
          ((producedSamples MetricsRecorder.init ts).length - METRICS_HISTORY_CAPACITY)) := by
  constructor
  · intro t
    simp [record_frame, MetricsRecorder.init]
  · intro ts
    have hinit : MetricsInv MetricsRecorder.init [] := by
      simp [MetricsInv, MetricsRecorder.init]
    have hrun := metricsInv_run ts MetricsRecorder.init [] hinit
    rw [List.nil_append] at hrun
    obtain ⟨hring, hcount⟩ := hrun
    refine ⟨?_, ?_, hcount, hring⟩
    · intro x hx
      rw [hring] at hx
      exact producedSamples_bounds ts MetricsRecorder.init x (List.mem_of_mem_drop hx)
    · rw [hring, List.length_drop]
      have : METRICS_HISTORY_CAPACITY = 900 := rfl
      omega

/-- C7 witness: two frames 1/30 apart produce the single stored sample
30, which the invariant places in `[0, 1000]`. -/
theorem metrics_history_witness :
    (30 : ℚ) ∈ (([0, 1 / 30] : List ℚ).foldl record_frame MetricsRecorder.init).samples ∧
    0 ≤ (30 : ℚ) ∧ (30 : ℚ) ≤ 1000 := by
  have hmem : (30 : ℚ) ∈
      (([0, 1 / 30] : List ℚ).foldl record_frame MetricsRecorder.init).samples := by
    norm_num [List.foldl, record_frame, MetricsRecorder.init, METRICS_HISTORY_CAPACITY]
  exact ⟨hmem, (metrics_history_spec.2 [0, 1 / 30]).1 30 hmem⟩

/-- C1: for a non-empty sample list and keep ratio 0.95 or 0.99,
`percentile_low_fps` returns the entry of the ascending-sorted copy at
index `round((n - 1) * (1 - keep_ratio))`; on `[120, 90, 60, 45, 30]`
both ratios select 30. -/
theorem percentile_low_fps_spec :
    ∀ (samples : List ℚ) (keepRatio : ℚ), samples ≠ [] →
      keepRatio = 19 / 20 ∨ keepRatio = 99 / 100 →
      ((samples.insertionSort (· ≤ ·)).Sorted (· ≤ ·) ∧
        (samples.insertionSort (· ≤ ·)).Perm samples ∧
        percentile_low_fps samples keepRatio =
          (samples.insertionSort (· ≤ ·)).getD
            ((f64Round (((samples.length - 1 : ℕ) : ℚ) * (1 - keepRatio))).toNat) 0) ∧
      percentile_low_fps [120, 90, 60, 45, 30] (19 / 20) = 30 ∧
      percentile_low_fps [120, 90, 60, 45, 30] (99 / 100) = 30 := by
  intro samples keepRatio hne hk
  have hempty : samples.isEmpty = false := by simpa [List.isEmpty_iff] using hne
  have hsortlen : (samples.insertionSort (· ≤ ·)).length = samples.length :=
    (List.perm_insertionSort (· ≤ ·) samples).length_eq
  refine ⟨⟨List.sorted_insertionSort (· ≤ ·) samples, List.perm_insertionSort (· ≤ ·) samples,
      ?_⟩, ?_, ?_⟩
  · rcases hk with rfl | rfl <;> norm_num [percentile_low_fps, hempty, hsortlen]
  · norm_num [percentile_low_fps, List.insertionSort, List.orderedInsert, f64Round]
  · norm_num [percentile_low_fps, List.insertionSort, List.orderedInsert, f64Round]

/-- C1 witness: instantiated at the spec's example list with keep
ratio 0.95, the selected sample is 30. -/
theorem percentile_low_fps_witness :
    percentile_low_fps [120, 90, 60, 45, 30] (19 / 20) = 30 ∧
    percentile_low_fps [120, 90, 60, 45, 30] (99 / 100) = 30 :=
  (percentile_low_fps_spec [120, 90, 60, 45, 30] (19 / 20) (by simp) (Or.inl rfl)).2

def PoolInv (s : SurfaceBuffers) : Prop :=
  s.dmabuf_released.length ≤ DMABUF_POOL_SIZE ∧
  s.imported_in_flight ≤ MAX_IMPORTED_DMABUF_IN_FLIGHT

lemma ensure_dmabuf_buffers_inv (heap : Bool) (s : SurfaceBuffers) (bw bh : ℕ)
    (s1 : SurfaceBuffers) (h : PoolInv s)
    (heq : ensure_dmabuf_buffers heap s bw bh = Except.ok s1) : PoolInv s1 := by
  simp only [ensure_dmabuf_buffers] at heq
  split_ifs at heq
  all_goals first
    | (simp only [Except.ok.injEq] at heq
       subst heq
       exact h)
    | (simp only [Except.ok.injEq] at heq
       subst heq
       exact ⟨by simp [DMABUF_POOL_SIZE], h.2⟩)

lemma pool_path_inv (heap : Bool) (s : SurfaceBuffers) (bw bh : ℕ)
    (s' : SurfaceBuffers) (hb : Bool) (eff : DrawEffects) (h : PoolInv s)
    (heq : ((ensure_dmabuf_buffers heap s bw bh).bind fun s1 =>
      match s1.dmabuf_released.findIdx? (fun released => released) with
      | none =>
        Except.ok (s1, true,
          { frame_requested := true, attached_buffer := false, committed := true })
      | some buffer_index =>
        Except.ok ({ s1 with dmabuf_released := s1.dmabuf_released.set buffer_index false },
          true,
          { frame_requested := true, attached_buffer := true, committed := true })) =
      Except.ok (s', hb, eff)) : PoolInv s' := by
  rcases hens : ensure_dmabuf_buffers heap s bw bh with e | s1
  · rw [hens] at heq
    simp [Except.bind] at heq
  · rw [hens] at heq
    simp only [Except.bind] at heq
    have hs1 := ensure_dmabuf_buffers_inv heap s bw bh s1 h hens
    rcases hfind : s1.dmabuf_released.findIdx? (fun released => released) with _ | i
    · rw [hfind] at heq
      simp only [Except.ok.injEq, Prod.mk.injEq] at heq
      obtain ⟨rfl, -, -⟩ := heq
      exact hs1
    · rw [hfind] at heq
      simp only [Except.ok.injEq, Prod.mk.injEq] at heq
      obtain ⟨rfl, -, -⟩ := heq
      exact ⟨by simpa using hs1.1, hs1.2⟩

lemma imported_path_inv (s : SurfaceBuffers) (n : ℕ) (s' : SurfaceBuffers)
    (eff : DrawEffects) (h : PoolInv s)
    (heq : draw_surface_dmabuf_imported s n = Except.ok (s', eff)) : PoolInv s' := by
  unfold draw_surface_dmabuf_imported at heq
  split_ifs at heq with h1 h2
  · simp only [Except.ok.injEq, Prod.mk.injEq] at heq
    obtain ⟨rfl, -⟩ := heq
    exact h
  · simp only [Except.ok.injEq, Prod.mk.injEq] at heq
    obtain ⟨rfl, -⟩ := heq
    refine ⟨h.1, ?_⟩
    have : s.imported_in_flight < MAX_IMPORTED_DMABUF_IN_FLIGHT := lt_of_not_le h1
    simpa using this

lemma draw_surface_dmabuf_preserves_inv (en heap : Bool) (s : SurfaceBuffers) (cs : Bool)
    (fp : Option FramePayload) (bw bh : ℕ) (s' : SurfaceBuffers) (hb : Bool)
    (eff : DrawEffects) (h : PoolInv s)
    (heq : draw_surface_dmabuf en heap s cs fp bw bh = Except.ok (s', hb, eff)) :
    PoolInv s' := by
  simp only [draw_surface_dmabuf] at heq
  split_ifs at heq with hen
  · rcases cs with _ | _ <;> rcases fp with _ | (_ | n)
    · exact pool_path_inv heap s bw bh s' hb eff h heq
    · exact pool_path_inv heap s bw bh s' hb eff h heq
    · exact pool_path_inv heap s bw bh s' hb eff h heq
    · exact pool_path_inv heap s bw bh s' hb eff h heq
    · exact pool_path_inv heap s bw bh s' hb eff h heq
    · simp only [Except.map] at heq
      rcases him : draw_surface_dmabuf_imported s n with e | res
      · rw [him] at heq
        simp at heq
      · rw [him] at heq
        rcases res with ⟨si, effi⟩
        simp only [Except.ok.injEq, Prod.mk.injEq] at heq
        obtain ⟨rfl, -, -⟩ := heq
        exact imported_path_inv s n si effi h him
  · simp only [Except.ok.injEq, Prod.mk.injEq] at heq
    obtain ⟨rfl, -, -⟩ := heq
    exact h

lemma poolInv_step (s : SurfaceBuffers) (e : SurfaceEvent) (h : PoolInv s) :
    PoolInv (s.step e) := by
  rcases e with ⟨en, heap, cs, fp, bw, bh⟩ | i | _ | _ | _
  · simp only [SurfaceBuffers.step]
    rcases hdraw : draw_surface_dmabuf en heap s cs fp bw bh with err | res
    · exact h
    · rcases res with ⟨s', hb, eff⟩
      exact draw_surface_dmabuf_preserves_inv en heap s cs fp bw bh s' hb eff h hdraw
  · exact ⟨by simpa [SurfaceBuffers.step] using h.1, by simpa [SurfaceBuffers.step] using h.2⟩
  · refine ⟨by simpa [SurfaceBuffers.step] using h.1, ?_⟩
    have := h.2
    simp only [SurfaceBuffers.step]
    omega
  · exact ⟨by simp [SurfaceBuffers.step, DMABUF_POOL_SIZE],
      by simp [SurfaceBuffers.step, MAX_IMPORTED_DMABUF_IN_FLIGHT]⟩
  · exact ⟨by simp [SurfaceBuffers.step, DMABUF_POOL_SIZE],
      by simp [SurfaceBuffers.step, MAX_IMPORTED_DMABUF_IN_FLIGHT]⟩

lemma poolInv_run (events : List SurfaceEvent) : PoolInv (SurfaceBuffers.run events) := by
  have hgen : ∀ (evs : List SurfaceEvent) (s : SurfaceBuffers), PoolInv s →
      PoolInv (evs.foldl SurfaceBuffers.step s) := by
    intro evs
    induction evs with
    | nil => intro s h; exact h
    | cons e evs ih => intro s h; exact ih (s.step e) (poolInv_step s e h)
  exact hgen events SurfaceBuffers.init
    ⟨by simp [SurfaceBuffers.init, DMABUF_POOL_SIZE],
      by simp [SurfaceBuffers.init, MAX_IMPORTED_DMABUF_IN_FLIGHT]⟩

lemma findIdx?_self_eq_none (l : List Bool) (h : ∀ b ∈ l, b = false) :
    l.findIdx? (fun released => released) = none := by
  induction l with
  | nil => rfl
  | cons b l ih =>
    have hb := h b (by simp)
    subst hb
    simp only [List.findIdx?_cons]
    simpa using ih fun x hx => h x (by simp [hx])

lemma pool_exhausted_defers (heap : Bool) (s : SurfaceBuffers) (cs : Bool)
    (fp : Option FramePayload) (bw bh : ℕ)
    (hroute : cs = false ∨ fp = none ∨ fp = some FramePayload.Cpu)
    (hheld : ∀ b ∈ s.dmabuf_released, b = false)
    (hpool : ¬ s.dmabuf_released.isEmpty)
    (hw : s.buffer_width = bw) (hh : s.buffer_height = bh) :
    draw_surface_dmabuf true heap s cs fp bw bh =
      Except.ok (s, true,
        { frame_requested := true, attached_buffer := false, committed := true }) := by
  have hens : ensure_dmabuf_buffers heap s bw bh = Except.ok s := by
    simp only [ensure_dmabuf_buffers]
    rw [if_pos]
    simp [hpool, hw, hh]
  have hfind := findIdx?_self_eq_none s.dmabuf_released hheld
  rcases hroute with rfl | rfl | rfl
  · rcases fp with _ | (_ | n) <;> simp [draw_surface_dmabuf, hens, Except.bind, hfind]
  · rcases cs with _ | _ <;> simp [draw_surface_dmabuf, hens, Except.bind, hfind]
  · rcases cs with _ | _ <;> simp [draw_surface_dmabuf, hens, Except.bind, hfind]

lemma imported_capped_defers (heap : Bool) (s : SurfaceBuffers) (n bw bh : ℕ)
    (hcap : MAX_IMPORTED_DMABUF_IN_FLIGHT ≤ s.imported_in_flight) :
    draw_surface_dmabuf true heap s true (some (FramePayload.Dmabuf n)) bw bh =
      Except.ok (s, true,
        { frame_requested := true, attached_buffer := false, committed := true }) := by
  simp [draw_surface_dmabuf, draw_surface_dmabuf_imported, hcap, Except.map]

/-- C2: the number of pool buffers simultaneously not marked released
never exceeds `DMABUF_POOL_SIZE = 2` and the imported in-flight count
never exceeds `MAX_IMPORTED_DMABUF_IN_FLIGHT = 3` along any event
history; and in both capped situations a redraw defers (a new frame
callback is registered, the commit attaches no buffer) and the draw
returns success. -/
theorem dmabuf_inflight_bounds_spec :
    (∀ events : List SurfaceEvent,
      (SurfaceBuffers.run events).heldCount ≤ DMABUF_POOL_SIZE ∧
      (SurfaceBuffers.run events).imported_in_flight ≤ MAX_IMPORTED_DMABUF_IN_FLIGHT) ∧
    (∀ (heap : Bool) (s : SurfaceBuffers) (cs : Bool) (fp : Option FramePayload) (bw bh : ℕ),
      cs = false ∨ fp = none ∨ fp = some FramePayload.Cpu →
      (∀ b ∈ s.dmabuf_released, b = false) →
      ¬ s.dmabuf_released.isEmpty → s.buffer_width = bw → s.buffer_height = bh →
      draw_surface_dmabuf true heap s cs fp bw bh =
        Except.ok (s, true,
          { frame_requested := true, attached_buffer := false, committed := true })) ∧
    (∀ (heap : Bool) (s : SurfaceBuffers) (n bw bh : ℕ),
      MAX_IMPORTED_DMABUF_IN_FLIGHT ≤ s.imported_in_flight →
      draw_surface_dmabuf true heap s true (some (FramePayload.Dmabuf n)) bw bh =
        Except.ok (s, true,
          { frame_requested := true, attached_buffer := false, committed := true })) := by
  refine ⟨fun events => ?_, ?_, ?_⟩
  · have hinv := poolInv_run events
    exact ⟨le_trans (List.countP_le_length _) hinv.1, hinv.2⟩
  · intro heap s cs fp bw bh hroute hheld hpool hw hh
    exact pool_exhausted_defers heap s cs fp bw bh hroute hheld hpool hw hh
  · intro heap s n bw bh hcap
    exact imported_capped_defers heap s n bw bh hcap

/-- A surface whose two pool buffers are both currently held by the
compositor. -/
def poolFullSurface : SurfaceBuffers :=
  { dmabuf_released := [false, false], imported_in_flight := 0, buffer_width := 64,
    buffer_height := 64, has_shm_buffer := false }

/-- A surface with the maximum number of imported buffers pending. -/
def importCappedSurface : SurfaceBuffers :=
  { dmabuf_released := [], imported_in_flight := 3, buffer_width := 0,
    buffer_height := 0, has_shm_buffer := false }

/-- C2 witness: a surface whose two pool buffers are both held defers a
shm-frame redraw, and a surface with three pending imports defers a
direct-import redraw; both return success. -/
theorem dmabuf_inflight_bounds_witness :
    draw_surface_dmabuf true true poolFullSurface false none 64 64 =
      Except.ok (poolFullSurface, true,
        { frame_requested := true, attached_buffer := false, committed := true }) ∧
    draw_surface_dmabuf true true importCappedSurface true (some (FramePayload.Dmabuf 1))
        64 64 =
      Except.ok (importCappedSurface, true,
        { frame_requested := true, attached_buffer := false, committed := true }) :=
  ⟨dmabuf_inflight_bounds_spec.2.1 true poolFullSurface false none 64 64 (Or.inl rfl)
      (by decide) (by decide) rfl rfl,
    dmabuf_inflight_bounds_spec.2.2 true importCappedSurface 1 64 64 (by decide)⟩

/-- C3 (amended): with compositor-assisted scaling under `fill`, the
declared source crop is centered, and its width/height ratio equals the
destination aspect ratio whenever the aspect-matched crop dimension is
at least one source pixel (the code clamps the crop dimension below at
1.0, so degenerate combinations where the ideal crop dimension falls
under one pixel keep a 1-pixel crop instead); a 16:9 source into a 4:3
destination yields the horizontal crop `(2, 0, 12, 9)` retaining full
source height; `stretch` declares the full source extent; and
compositor-assisted scaling is never enabled for `fit`. -/
theorem viewport_fill_crop_spec :
    ∀ sw sh dw dh : ℕ,
      ((configure_viewport_source (some (sw, sh)) dw dh ScaleMode.Fill).x =
          (((max sw 1 : ℕ) : ℚ) -
            (configure_viewport_source (some (sw, sh)) dw dh ScaleMode.Fill).w) / 2 ∧
        (configure_viewport_source (some (sw, sh)) dw dh ScaleMode.Fill).y =
          (((max sh 1 : ℕ) : ℚ) -
            (configure_viewport_source (some (sw, sh)) dw dh ScaleMode.Fill).h) / 2) ∧
      (((max dw 1 : ℕ) : ℚ) / ((max dh 1 : ℕ) : ℚ) <
          ((max sw 1 : ℕ) : ℚ) / ((max sh 1 : ℕ) : ℚ) →
        1 ≤ ((max sh 1 : ℕ) : ℚ) * (((max dw 1 : ℕ) : ℚ) / ((max dh 1 : ℕ) : ℚ)) →
        (configure_viewport_source (some (sw, sh)) dw dh ScaleMode.Fill).w /
            (configure_viewport_source (some (sw, sh)) dw dh ScaleMode.Fill).h =
          ((max dw 1 : ℕ) : ℚ) / ((max dh 1 : ℕ) : ℚ) ∧
        (configure_viewport_source (some (sw, sh)) dw dh ScaleMode.Fill).h =
          ((max sh 1 : ℕ) : ℚ)) ∧
      (¬ (((max dw 1 : ℕ) : ℚ) / ((max dh 1 : ℕ) : ℚ) <
          ((max sw 1 : ℕ) : ℚ) / ((max sh 1 : ℕ) : ℚ)) →
        1 ≤ ((max sw 1 : ℕ) : ℚ) / (((max dw 1 : ℕ) : ℚ) / ((max dh 1 : ℕ) : ℚ)) →
        (configure_viewport_source (some (sw, sh)) dw dh ScaleMode.Fill).w /
            (configure_viewport_source (some (sw, sh)) dw dh ScaleMode.Fill).h =
          ((max dw 1 : ℕ) : ℚ) / ((max dh 1 : ℕ) : ℚ) ∧
        (configure_viewport_source (some (sw, sh)) dw dh ScaleMode.Fill).w =
          ((max sw 1 : ℕ) : ℚ)) ∧
      configure_viewport_source (some (sw, sh)) dw dh ScaleMode.Stretch =
        { x := 0, y := 0, w := ((max sw 1 : ℕ) : ℚ), h := ((max sh 1 : ℕ) : ℚ) } ∧
      (∀ viewporter : Bool, compositor_scaling_enabled viewporter ScaleMode.Fit = false) ∧
      configure_viewport_source (some (16, 9)) 4 3 ScaleMode.Fill =
        { x := 2, y := 0, w := 12, h := 9 } := by
  intro sw sh dw dh
  have hsw1 : (1 : ℚ) ≤ ((max sw 1 : ℕ) : ℚ) := by exact_mod_cast le_max_right sw 1
  have hsh1 : (1 : ℚ) ≤ ((max sh 1 : ℕ) : ℚ) := by exact_mod_cast le_max_right sh 1
  have hdw1 : (1 : ℚ) ≤ ((max dw 1 : ℕ) : ℚ) := by exact_mod_cast le_max_right dw 1
  have hdh1 : (1 : ℚ) ≤ ((max dh 1 : ℕ) : ℚ) := by exact_mod_cast le_max_right dh 1
  have hswpos : (0 : ℚ) < ((max sw 1 : ℕ) : ℚ) := lt_of_lt_of_le one_pos hsw1
  have hshpos : (0 : ℚ) < ((max sh 1 : ℕ) : ℚ) := lt_of_lt_of_le one_pos hsh1
  have hdwpos : (0 : ℚ) < ((max dw 1 : ℕ) : ℚ) := lt_of_lt_of_le one_pos hdw1
  have hdhpos : (0 : ℚ) < ((max dh 1 : ℕ) : ℚ) := lt_of_lt_of_le one_pos hdh1
  have hdapos : (0 : ℚ) < ((max dw 1 : ℕ) : ℚ) / ((max dh 1 : ℕ) : ℚ) :=
    div_pos hdwpos hdhpos
  refine ⟨?_, ?_, ?_, ?_, ?_, ?_⟩
  · by_cases hlt : ((max dw 1 : ℕ) : ℚ) / ((max dh 1 : ℕ) : ℚ) <
        ((max sw 1 : ℕ) : ℚ) / ((max sh 1 : ℕ) : ℚ)
    · simp only [configure_viewport_source, if_pos hlt]
      constructor
      · have hwle : min (max (((max sh 1 : ℕ) : ℚ) *
            (((max dw 1 : ℕ) : ℚ) / ((max dh 1 : ℕ) : ℚ))) 1) ((max sw 1 : ℕ) : ℚ) ≤
            ((max sw 1 : ℕ) : ℚ) := min_le_right _ _
        rw [max_eq_left (by nlinarith [hwle])]
        ring
      · ring
    · simp only [configure_viewport_source, if_neg hlt]
      constructor
      · ring
      · have hhle : min (max (((max sw 1 : ℕ) : ℚ) /
            (((max dw 1 : ℕ) : ℚ) / ((max dh 1 : ℕ) : ℚ))) 1) ((max sh 1 : ℕ) : ℚ) ≤
            ((max sh 1 : ℕ) : ℚ) := min_le_right _ _
        rw [max_eq_left (by nlinarith [hhle])]
        ring
  · intro hlt hideal
    simp only [configure_viewport_source, if_pos hlt]
    have hda : ((max sh 1 : ℕ) : ℚ) * (((max dw 1 : ℕ) : ℚ) / ((max dh 1 : ℕ) : ℚ)) =
        ((max sh 1 : ℕ) : ℚ) * ((max dw 1 : ℕ) : ℚ) / ((max dh 1 : ℕ) : ℚ) := by ring
    have hlt' : ((max sh 1 : ℕ) : ℚ) * (((max dw 1 : ℕ) : ℚ) / ((max dh 1 : ℕ) : ℚ)) <
        ((max sw 1 : ℕ) : ℚ) := by
      rw [div_lt_div_iff hdhpos hshpos] at hlt
      rw [hda, div_lt_iff hdhpos]
      nlinarith [hlt]
    refine ⟨?_, ?_⟩
    · rw [max_eq_left hideal, min_eq_left (le_of_lt hlt')]
      exact mul_div_cancel_left₀ _ (ne_of_gt hshpos)
    · trivial
  · intro hge hideal
    simp only [configure_viewport_source, if_neg hge]
    push_neg at hge
    have hle' : ((max sw 1 : ℕ) : ℚ) / (((max dw 1 : ℕ) : ℚ) / ((max dh 1 : ℕ) : ℚ)) ≤
        ((max sh 1 : ℕ) : ℚ) := by
      rw [div_le_iff hdapos]
      rw [div_le_iff hshpos] at hge
      nlinarith [hge]
    have hq : (0 : ℚ) < ((max sw 1 : ℕ) : ℚ) / (((max dw 1 : ℕ) : ℚ) / ((max dh 1 : ℕ) : ℚ)) :=
      lt_of_lt_of_le one_pos hideal
    refine ⟨?_, ?_⟩
    · rw [max_eq_left hideal, min_eq_left hle']
      rw [div_eq_iff (ne_of_gt hq), mul_comm, div_mul_cancel₀ _ (ne_of_gt hdapos)]
    · trivial
  · simp [configure_viewport_source]
  · intro viewporter
    simp [compositor_scaling_enabled]
  · norm_num [configure_viewport_source, min_def, max_def]

/-- C3 witness: a 16:9 source into a 4:3 destination satisfies the
aspect hypotheses, so the declared crop ratio equals 4/3 with full
source height. -/
theorem viewport_fill_crop_witness :
    (configure_viewport_source (some (16, 9)) 4 3 ScaleMode.Fill).w /
        (configure_viewport_source (some (16, 9)) 4 3 ScaleMode.Fill).h =
      ((max 4 1 : ℕ) : ℚ) / ((max 3 1 : ℕ) : ℚ) ∧
    (configure_viewport_source (some (16, 9)) 4 3 ScaleMode.Fill).h =
      ((max 9 1 : ℕ) : ℚ) :=
  (viewport_fill_crop_spec 16 9 4 3).2.1 (by norm_num) (by norm_num)

/-- C3 counterexample: a 4×1 source into a 1×2 destination (destination
aspect 1/2) declares the centered crop `(3/2, 0, 1, 1)` whose ratio is
1, not the destination aspect ratio: the claim fails as stated for
every source and destination size. -/
theorem viewport_fill_crop_ratio_cex :
    configure_viewport_source (some (4, 1)) 1 2 ScaleMode.Fill =
      { x := 3 / 2, y := 0, w := 1, h := 1 } ∧
    (configure_viewport_source (some (4, 1)) 1 2 ScaleMode.Fill).w /
        (configure_viewport_source (some (4, 1)) 1 2 ScaleMode.Fill).h ≠
      ((max 1 1 : ℕ) : ℚ) / ((max 2 1 : ℕ) : ℚ) := by
  constructor
  · norm_num [configure_viewport_source, min_def, max_def]
  · norm_num [configure_viewport_source, min_def, max_def]

lemma pixel_bgra_le (frame : VideoFrame) (hb : ∀ b ∈ frame.pixels, b ≤ 255)
    (x y ch : ℕ) : pixel_bgra frame x y ch ≤ 255 := by
  unfold pixel_bgra
  rcases hget : frame.pixels.get? (y * frame.stride + x * 4 + ch) with _ | b
  · rw [List.getD_eq_get?, hget]
    simp
  · rw [List.getD_eq_get?, hget]
    simpa using hb b (List.get?_mem hget)

lemma floor_natCast_add_half (n : ℕ) : ⌊((n : ℚ) + 1 / 2)⌋ = (n : ℤ) := by
  rw [Int.floor_eq_iff]
  constructor
  · push_cast
    linarith
  · push_cast
    linarith

lemma sample_channel_eval (frame : VideoFrame) (hb : ∀ b ∈ frame.pixels, b ≤ 255)
    (k l ch : ℕ) :
    (min (max (f64Round ((pixel_bgra frame k l ch : ℕ) : ℚ)) 0) 255).toNat =
      pixel_bgra frame k l ch := by
  have hnn : (0 : ℚ) ≤ ((pixel_bgra frame k l ch : ℕ) : ℚ) := Nat.cast_nonneg _
  rw [f64Round, if_pos hnn, floor_natCast_add_half]
  have hle : (pixel_bgra frame k l ch : ℤ) ≤ 255 := by
    exact_mod_cast pixel_bgra_le frame hb k l ch
  rw [max_eq_left (Int.natCast_nonneg _), min_eq_left hle]
  exact Int.toNat_natCast _

lemma sample_bilinear_clamped_eval (frame : VideoFrame)
    (hb : ∀ b ∈ frame.pixels, b ≤ 255) (sx sy : ℚ) (k l : ℕ)
    (hx : min (max sx 0) (((frame.width - 1 : ℕ) : ℚ)) = (k : ℚ))
    (hy : min (max sy 0) (((frame.height - 1 : ℕ) : ℚ)) = (l : ℚ)) :
    sample_bilinear_bgra frame sx sy =
      [pixel_bgra frame k l 0, pixel_bgra frame k l 1, pixel_bgra frame k l 2,
        pixel_bgra frame k l 3] := by
  simp only [sample_bilinear_bgra, hx, hy, Int.floor_natCast, Int.toNat_natCast, sub_self,
    mul_zero, add_zero]
  rw [show List.range 4 = [0, 1, 2, 3] from rfl]
  simp only [List.map_cons, List.map_nil, List.cons.injEq, and_true]
  exact ⟨sample_channel_eval frame hb k l 0, sample_channel_eval frame hb k l 1,
    sample_channel_eval frame hb k l 2, sample_channel_eval frame hb k l 3⟩

/-- C5: bilinear sampling at an exact in-range integer source
coordinate returns that pixel's four channel bytes unchanged, and
sampling outside the frame clamps to the nearest edge pixel (the
top-left corner below/left, the bottom-right corner above/right) —
no wrap-around. -/
theorem sample_bilinear_identity_spec :
    ∀ (frame : VideoFrame), (∀ b ∈ frame.pixels, b ≤ 255) →
      (∀ m n : ℕ, m < frame.width → n < frame.height →
        sample_bilinear_bgra frame (m : ℚ) (n : ℚ) =
          [pixel_bgra frame m n 0, pixel_bgra frame m n 1, pixel_bgra frame m n 2,
            pixel_bgra frame m n 3]) ∧
      (∀ sx sy : ℚ, sx ≤ 0 → sy ≤ 0 →
        sample_bilinear_bgra frame sx sy =
          [pixel_bgra frame 0 0 0, pixel_bgra frame 0 0 1, pixel_bgra frame 0 0 2,
            pixel_bgra frame 0 0 3]) ∧
      (∀ sx sy : ℚ,
        (((frame.width - 1 : ℕ) : ℚ)) ≤ sx → (((frame.height - 1 : ℕ) : ℚ)) ≤ sy →
        sample_bilinear_bgra frame sx sy =
          [pixel_bgra frame (frame.width - 1) (frame.height - 1) 0,
            pixel_bgra frame (frame.width - 1) (frame.height - 1) 1,
            pixel_bgra frame (frame.width - 1) (frame.height - 1) 2,
            pixel_bgra frame (frame.width - 1) (frame.height - 1) 3]) := by
  intro frame hb
  refine ⟨?_, ?_, ?_⟩
  · intro m n hm hn
    apply sample_bilinear_clamped_eval frame hb
    · rw [max_eq_left (Nat.cast_nonneg m)]
      exact min_eq_left (by exact_mod_cast Nat.le_sub_one_of_lt hm)
    · rw [max_eq_left (Nat.cast_nonneg n)]
      exact min_eq_left (by exact_mod_cast Nat.le_sub_one_of_lt hn)
  · intro sx sy hsx hsy
    apply sample_bilinear_clamped_eval frame hb
    · rw [max_eq_right hsx]
      exact_mod_cast min_eq_left (Nat.cast_nonneg _)
    · rw [max_eq_right hsy]
      exact_mod_cast min_eq_left (Nat.cast_nonneg _)
  · intro sx sy hsx hsy
    apply sample_bilinear_clamped_eval frame hb
    · rw [max_eq_left (le_trans (Nat.cast_nonneg _) hsx)]
      exact min_eq_right hsx
    · rw [max_eq_left (le_trans (Nat.cast_nonneg _) hsy)]
      exact min_eq_right hsy

/-- A synthetic 2x2 BGRA frame with four distinct colors. -/
def testFrame2x2 : VideoFrame :=
  { width := 2, height := 2, stride := 8,
    pixels := [10, 20, 30, 40, 50, 60, 70, 80, 90, 100, 110, 120, 130, 140, 150, 160] }

/-- C5 witness: on the synthetic 2x2 frame, sampling at (1,1) returns
the bottom-right color unchanged and sampling at (-5,-7) clamps to the
top-left color. -/
theorem sample_bilinear_identity_witness :
    sample_bilinear_bgra testFrame2x2 1 1 = [130, 140, 150, 160] ∧
    sample_bilinear_bgra testFrame2x2 (-5) (-7) = [10, 20, 30, 40] := by
  have h := sample_bilinear_identity_spec testFrame2x2 (by decide)
  constructor
  · have h1 := h.1 1 1 (by decide) (by decide)
    simpa [pixel_bgra, testFrame2x2] using h1
  · have h2 := h.2.1 (-5) (-7) (by norm_num) (by norm_num)
    simpa [pixel_bgra, testFrame2x2] using h2

/-- Pixel indices `(x, y)` with `x < dw` address distinct row-major
cells. -/
lemma grid_index_inj {dw x x' y y' : ℕ} (hx : x < dw) (hx' : x' < dw)
    (h : y * dw + x = y' * dw + x') : y = y' ∧ x = x' := by
  rcases Nat.lt_trichotomy y y' with hlt | heq | hgt
  · have hmul := Nat.mul_le_mul_right dw (show y + 1 ≤ y' by omega)
    have hexp : (y + 1) * dw = y * dw + dw := by ring
    omega
  · subst heq
    omega
  · have hmul := Nat.mul_le_mul_right dw (show y' + 1 ≤ y by omega)
    have hexp : (y' + 1) * dw = y' * dw + dw := by ring
    omega

/-- A fold of canvas-writing steps that each leave byte `i` unchanged
leaves byte `i` unchanged. -/
lemma foldl_data_invariant {α : Type} (L : List α) (step : Canvas → α → Canvas) (i : ℕ)
    (hstep : ∀ c a, a ∈ L → (step c a).data i = c.data i) :
    ∀ c : Canvas, (L.foldl step c).data i = c.data i := by
  induction L with
  | nil => intro c; rfl
  | cons a L ih =>
    intro c
    rw [List.foldl_cons,
      ih (fun c' a' ha' => hstep c' a' (List.mem_cons_of_mem _ ha')),
      hstep c a (List.mem_cons_self _ _)]

/-- `fill_black` writes opaque black into every pixel that fits the
canvas. -/
lemma fill_black_data (c : Canvas) (p ch : ℕ) (hch : ch < 4) (hlen : (p + 1) * 4 ≤ c.len) :
    (fill_black c).data (p * 4 + ch) = if ch = 3 then 255 else 0 := by
  unfold fill_black
  have h4 : p + 1 ≤ c.len / 4 := (Nat.le_div_iff_mul_le (by norm_num)).mpr hlen
  have hidx : p * 4 + ch < 4 * (c.len / 4) := by omega
  have hmod : (p * 4 + ch) % 4 = ch := by
    rw [mul_comm, Nat.mul_add_mod]
    exact Nat.mod_eq_of_lt hch
  simp only [hidx, if_true, hmod]

/-- C4: CPU scaling under `fit` leaves every destination pixel whose
center lies outside the centered scaled rectangle equal to opaque black
(B=G=R=0, A=255); and with no frame available the whole destination
content is opaque black under any scale policy. -/
theorem fit_letterbox_black_spec :
    (∀ (frame : VideoFrame) (dst : Canvas) (dw dh x y ch : ℕ),
      0 < frame.width → 0 < frame.height → 0 < dw → 0 < dh →
      dw * 4 * dh ≤ dst.len → x < dw → y < dh → ch < 4 →
      ((x : ℚ) + 1 / 2 <
          ((dw : ℚ) - (frame.width : ℚ) *
            min ((dw : ℚ) / (frame.width : ℚ)) ((dh : ℚ) / (frame.height : ℚ))) * (1 / 2) ∨
        ((dw : ℚ) - (frame.width : ℚ) *
            min ((dw : ℚ) / (frame.width : ℚ)) ((dh : ℚ) / (frame.height : ℚ))) * (1 / 2) +
            (frame.width : ℚ) *
              min ((dw : ℚ) / (frame.width : ℚ)) ((dh : ℚ) / (frame.height : ℚ)) ≤
          (x : ℚ) + 1 / 2 ∨
        (y : ℚ) + 1 / 2 <
          ((dh : ℚ) - (frame.height : ℚ) *
            min ((dw : ℚ) / (frame.width : ℚ)) ((dh : ℚ) / (frame.height : ℚ))) * (1 / 2) ∨
        ((dh : ℚ) - (frame.height : ℚ) *
            min ((dw : ℚ) / (frame.width : ℚ)) ((dh : ℚ) / (frame.height : ℚ))) * (1 / 2) +
            (frame.height : ℚ) *
              min ((dw : ℚ) / (frame.width : ℚ)) ((dh : ℚ) / (frame.height : ℚ)) ≤
          (y : ℚ) + 1 / 2) →
      (blit_scaled_bgra frame dst dw dh ScaleMode.Fit).data ((y * dw + x) * 4 + ch) =
        if ch = 3 then 255 else 0) ∧
    (∀ (canvas : Canvas) (dw dh x y ch : ℕ) (scale_mode : ScaleMode),
      dw * 4 * dh ≤ canvas.len → x < dw → y < dh → ch < 4 →
      (fill_canvas_for_surface canvas none dw dh scale_mode).data ((y * dw + x) * 4 + ch) =
        if ch = 3 then 255 else 0) := by
  constructor
  · intro frame dst dw dh x₀ y₀ ch hfw hfh hdw hdh hlen hx₀ hy₀ hch houtside
    have hSpos : (0 : ℚ) <
        min ((dw : ℚ) / (frame.width : ℚ)) ((dh : ℚ) / (frame.height : ℚ)) :=
      lt_min (div_pos (by exact_mod_cast hdw) (by exact_mod_cast hfw))
        (div_pos (by exact_mod_cast hdh) (by exact_mod_cast hfh))
    simp only [blit_scaled_bgra]
    rw [if_neg (by omega), if_neg (by omega), if_neg (by simp),
      if_neg (by push_neg; exact ⟨hSpos, hSpos⟩)]
    rw [foldl_data_invariant _ _ _ ?hrows]
    case hrows =>
      intro c y hy
      refine foldl_data_invariant _ _ _ ?_ c
      intro c' a ha
      have hax : a < dw := List.mem_range.mp ha
      split_ifs with hlen2 hskip
      · rfl
      · rfl
      · dsimp only [write4]
        rw [if_neg ?hno]
        case hno =>
          rintro ⟨hge, hlt⟩
          have e1 : y * (dw * 4) + a * 4 = (y * dw + a) * 4 := by ring
          rw [e1] at hge hlt
          have hp : y * dw + a = y₀ * dw + x₀ := by omega
          obtain ⟨rfl, rfl⟩ := grid_index_inj hax hx₀ hp
          exact hskip ⟨trivial, houtside⟩
    · have hmul : (y₀ + 1) * dw ≤ dh * dw := Nat.mul_le_mul_right dw (by omega)
      have e2 : (y₀ + 1) * dw = y₀ * dw + dw := by ring
      have e3 : dh * dw * 4 = dw * 4 * dh := by ring
      exact fill_black_data dst (y₀ * dw + x₀) ch hch (by omega)
  · intro canvas dw dh x₀ y₀ ch scale_mode hlen hx₀ hy₀ hch
    simp only [fill_canvas_for_surface]
    have hmul : (y₀ + 1) * dw ≤ dh * dw := Nat.mul_le_mul_right dw (by omega)
    have e2 : (y₀ + 1) * dw = y₀ * dw + dw := by ring
    have e3 : dh * dw * 4 = dw * 4 * dh := by ring
    exact fill_black_data canvas (y₀ * dw + x₀) ch hch (by omega)

/-- A 32-byte destination canvas (4×2 BGRA) with nonzero initial
contents. -/
def testCanvas : Canvas :=
  { len := 32, data := fun _ => 7 }

/-- C4 witness: blitting the 2×2 frame into a 4×2 destination under
`fit` letterboxes; the pixel at (0,0) has its center left of the
centered scaled rectangle and ends up opaque black, and with no frame
the canvas pixel (1,0) is opaque black. -/
theorem fit_letterbox_black_witness :
    (blit_scaled_bgra testFrame2x2 testCanvas 4 2 ScaleMode.Fit).data ((0 * 4 + 0) * 4 + 0) =
      0 ∧
    (blit_scaled_bgra testFrame2x2 testCanvas 4 2 ScaleMode.Fit).data ((0 * 4 + 0) * 4 + 3) =
      255 ∧
    (fill_canvas_for_surface testCanvas none 4 2 ScaleMode.Fit).data ((0 * 4 + 1) * 4 + 3) =
      255 := by
  refine ⟨?_, ?_, ?_⟩
  · have h := fit_letterbox_black_spec.1 testFrame2x2 testCanvas 4 2 0 0 0
      (by norm_num [testFrame2x2]) (by norm_num [testFrame2x2]) (by norm_num) (by norm_num)
      (by norm_num [testCanvas]) (by norm_num) (by norm_num) (by norm_num)
      (Or.inl (by norm_num [testFrame2x2, min_def]))
    simpa using h
  · have h := fit_letterbox_black_spec.1 testFrame2x2 testCanvas 4 2 0 0 3
      (by norm_num [testFrame2x2]) (by norm_num [testFrame2x2]) (by norm_num) (by norm_num)
      (by norm_num [testCanvas]) (by norm_num) (by norm_num) (by norm_num)
      (Or.inl (by norm_num [testFrame2x2, min_def]))
    simpa using h
  · have h := fit_letterbox_black_spec.2 testCanvas 4 2 1 0 3 ScaleMode.Fit
      (by norm_num [testCanvas]) (by norm_num) (by norm_num) (by norm_num)
    simpa using h
